import Mathlib

/-!
Verification of the training-loop orchestration in `train_openfold.py`
(`OpenFoldWrapper` and `main`): the EMA weight-swap protocol used around
validation, the learning-rate resumption logic in `configure_optimizers`,
checkpoint loading (template-key filtering, global-step recovery,
weights-only key remapping), the startup precision check, and the
batch-size precondition of the all-atom structural metrics.

Tensors are modelled as heap cells holding integer values (the numeric
content of a weight is irrelevant to the properties below; only value
versus reference semantics matters), Python dicts as association lists,
and Python exceptions as an explicit error type.
-/

/-- Python exceptions raised (or raisable) by the modelled code paths. -/
inductive PyErr where
  | assertionError (msg : String)
  | attributeError (msg : String)
  | nameError (missing : String)
  | keyError (key : String)
  | valueError (msg : String)
deriving DecidableEq

/-! ## Weight-swap protocol (`validation_step` / `validation_epoch_end`)

`model.state_dict()` returns references to the live weight tensors, so we
model a heap of tensor cells addressed by natural numbers.  The wrapper
holds, for each parameter name, the address of its live tensor; the EMA
shadow is read only by value.  `cached_weights` is `None` (`none`) in the
`Live` state and holds the cloned values in the `Swapped` state. -/

abbrev Addr := Nat

abbrev Heap := Addr → Int

/-- State of `OpenFoldWrapper` relevant to the validation weight swap:
the live model's named tensor addresses, the EMA shadow values
(`self.ema.state_dict()["params"]`, read by value when loaded into the
model), and the `cached_weights` field (lines 63, 118-143). -/
structure WrapperSwapState where
  modelAddrs : List (String × Addr)
  emaVals : String → Int
  cached_weights : Option (List (String × Int))

/-- `load_state_dict`: for every named parameter of the model, overwrite
the live tensor cell (in place, at its existing address) with the value
supplied for that name. -/
def writeParams (h : Heap) (addrs : List (String × Addr)) (vals : String → Int) : Heap :=
  addrs.foldl (fun h2 ka => Function.update h2 ka.2 (vals ka.1)) h

/-- Value lookup in a cached (cloned) state dict; names present in the
model are expected to be present in the cache. -/
def lookupD (l : List (String × Int)) (k : String) : Int :=
  (l.lookup k).getD 0

/-- Lines 118-127 of `validation_step`: if `cached_weights is None`,
clone every live tensor's value (`t.detach().clone()`, a deep value
copy) into `cached_weights` and load the EMA shadow values into the
live tensors; otherwise the guard skips the whole block (no raise). -/
def validationStepSwap (h : Heap) (s : WrapperSwapState) : Heap × WrapperSwapState :=
  match s.cached_weights with
  | none =>
      let cached := s.modelAddrs.map (fun ka => (ka.1, h ka.2))
      let h2 := writeParams h s.modelAddrs s.emaVals
      (h2, { s with cached_weights := some cached })
  | some _ => (h, s)

/-- Lines 140-143 of `validation_epoch_end`:
`self.model.load_state_dict(self.cached_weights)` followed by
`self.cached_weights = None`.  When `cached_weights` is `None` (state
`Live`), `load_state_dict(None)` fails inside PyTorch with an
attribute/type error on `NoneType`; no `StateError` class exists in the
file. -/
def validationEpochEndSwap (h : Heap) (s : WrapperSwapState) :
    Except PyErr (Heap × WrapperSwapState) :=
  match s.cached_weights with
  | some vals =>
      .ok (writeParams h s.modelAddrs (lookupD vals), { s with cached_weights := none })
  | none => .error (.attributeError "load_state_dict received NoneType")

/-! ## Checkpoint EMA loading (`on_load_checkpoint`, lines 329-333) -/

/-- Python's substring test `needle in hay` on strings. -/
def strContains (hay needle : String) : Bool :=
  decide (needle.toList <:+: hay.toList)

/-- The `checkpoint["ema"]` fragment: the shadow parameter map and the
decay, as produced by `ExponentialMovingAverage.state_dict`. -/
structure EMACheckpoint where
  params : List (String × Int)
  decay : ℚ
deriving DecidableEq

/-- Lines 329-333: `on_load_checkpoint` reads `checkpoint["ema"]`, and if
`self.model.template_config.enabled` is false replaces `ema["params"]`
with the sub-dict of keys not containing `"template"`, then hands the
fragment to `self.ema.load_state_dict`.  The returned value is the EMA
state as loaded. -/
def on_load_checkpoint (template_enabled : Bool) (ema : EMACheckpoint) : EMACheckpoint :=
  if template_enabled then ema
  else { ema with params := ema.params.filter (fun kv => !(strContains kv.1 "template")) }

/-! ## All-atom metric precondition (`_compute_validation_metrics`, lines 145-293)

Only the control flow and the recorded metric keys are modelled; the
numeric metric values are irrelevant to the batch-size precondition. -/

/-- Lines 145-293: the metric keys inserted by `_compute_validation_metrics`
in order, with the `assert gt_coords.shape[0] == 1` (lines 197-198) that
guards the all-atom block inside the
`superimposition_metrics and add_struct_metrics` branch (line 181).
`show_scn_metrics` is the constant `False` of line 253, so that block is
skipped. -/
def computeValidationMetricKeys (batchSize : Nat)
    (superimposition_metrics add_struct_metrics : Bool) :
    Except PyErr (List String) :=
  let metrics := ["lddt_ca", "drmsd_ca"]
  if superimposition_metrics && add_struct_metrics then
    let metrics := metrics ++ ["rmsd_ca", "gdtts_ca", "gdtha_ca"]
    if batchSize = 1 then
      .ok (metrics ++
        ["gdcall_aa", "tmscore_aa", "tmscore_ca", "drmsd_aa", "lddt_aa", "lddtquasi_aa"])
    else
      .error (.assertionError "Structure metrics only supported for batchsize of 1.")
  else
    .ok metrics

/-! ## Startup precision check (`__main__`, lines 733-734) -/

/-- Lines 733-734: `if(str(args.precision) == "16" and
args.deepspeed_config_path is not None): raise ValueError(...)`.
Requesting the sharded optimizer means supplying a DeepSpeed config
path. -/
def startupPrecisionCheck (precision : String) (deepspeed_config_path : Option String) :
    Except PyErr Unit :=
  if precision = "16" ∧ deepspeed_config_path.isSome then
    .error (.valueError "DeepSpeed and FP16 training are not compatible")
  else
    .ok ()

/-! ## Learning-rate scheduler resumption (`configure_optimizers`, lines 295-327)

`AlphaFoldLRScheduler` itself lives in `openfold/utils/lr_schedulers.py`,
which is outside the analysed file, so its behaviour is modelled from the
spec; the facts proved below about `configure_optimizers` (which
arguments it passes) come from the analysed file. -/

/-- One of `optimizer.param_groups`: `torch.optim.Adam` creates groups
with an `lr` entry and no `initial_lr` entry. -/
structure ParamGroup where
  lr : ℚ
  initial_lr : Option ℚ
deriving DecidableEq

/-- Modelled from the spec: configuration of the warmup-then-decay
learning-rate shape of `AlphaFoldLRScheduler` (linear warmup to the peak
rate over `warmup_no_steps`, constant afterwards, stepwise exponential
decay after `start_decay_after_n_steps`). -/
structure LRConfig where
  base_lr : ℚ
  max_lr : ℚ
  warmup_no_steps : ℕ
  start_decay_after_n_steps : ℕ
  decay_every_n_steps : ℕ
  decay_factor : ℚ

/-- Modelled from the spec: the pure multiplier function
`lr(step)` of the scheduler — warmup-then-decay as a function of the
global step. -/
def lrMult (c : LRConfig) (step : ℕ) : ℚ :=
  if step ≤ c.warmup_no_steps then
    c.base_lr + ((step : ℚ) / (c.warmup_no_steps : ℚ)) * c.max_lr
  else if c.start_decay_after_n_steps < step then
    c.max_lr * c.decay_factor ^ ((step - c.start_decay_after_n_steps) / c.decay_every_n_steps + 1)
  else
    c.max_lr

/-- Modelled from the spec: the stateful stepper wrapped around
`lrMult`.  Its internal counter `last_epoch` defaults to the sentinel
`-1`, which denotes "no resume": the schedule starts fresh at step 0. -/
structure AlphaFoldLRScheduler where
  last_epoch : Int
deriving DecidableEq

/-- Modelled from the spec: constructing the scheduler performs the
initial implicit step, moving the counter from its constructor argument
to the next step. -/
def schedulerCtorStep (s : AlphaFoldLRScheduler) : AlphaFoldLRScheduler :=
  { last_epoch := s.last_epoch + 1 }

/-- Modelled from the spec: one explicit scheduler step advances the
counter by one; the multiplier applied afterwards is `lrMult` at the new
counter. -/
def schedulerStep (s : AlphaFoldLRScheduler) : AlphaFoldLRScheduler :=
  { last_epoch := s.last_epoch + 1 }

/-- Modelled from the spec: the multiplier currently applied by the
scheduler (its counter clamped to ℕ; it is non-negative after
construction). -/
def currentMult (c : LRConfig) (s : AlphaFoldLRScheduler) : ℚ :=
  lrMult c s.last_epoch.toNat

/-- Lines 295-327 (`configure_optimizers`): build the Adam optimizer with
one parameter group at `learning_rate`; if `self.last_lr_step != -1` set
`group['initial_lr'] = learning_rate` on every group lacking it; then
construct `AlphaFoldLRScheduler(optimizer)` — the `last_epoch` argument
is omitted at lines 316-318, so the scheduler is built with its default
sentinel counter `-1` regardless of `last_lr_step`. -/
def configure_optimizers (last_lr_step : Int) (learning_rate : ℚ) :
    List ParamGroup × AlphaFoldLRScheduler :=
  let groups : List ParamGroup := [{ lr := learning_rate, initial_lr := none }]
  let groups :=
    if last_lr_step ≠ -1 then
      groups.map (fun g =>
        match g.initial_lr with
        | none => { g with initial_lr := some learning_rate }
        | some _ => g)
    else groups
  (groups, { last_epoch := -1 })

/-- Lines 338-339: `resume_last_lr_step` records the step, and line 64
initializes `self.last_lr_step = -1`; composed with
`configure_optimizers` and one explicit scheduler step, this is the
multiplier governing the first optimizer step taken after resuming from
step `lastStep`. -/
def firstMultAfterResume (c : LRConfig) (lastStep : Int) (learning_rate : ℚ) : ℚ :=
  currentMult c (schedulerStep (schedulerCtorStep (configure_optimizers lastStep learning_rate).2))

/-! ## Checkpoint resumption in `main` (lines 342-388, 476-485) and the
JAX loading path (lines 368-370, 498-504)

`get_global_step_from_zero_checkpoint` and
`get_fp32_state_dict_from_zero_checkpoint` come from
`scripts/zero_to_fp32`, outside the analysed file; following the spec,
a sharded checkpoint directory is a container from which these two
utilities extract a step count and a flattened weight map. -/

/-- Modelled from the spec: the content of a sharded (DeepSpeed "zero")
checkpoint directory, holding the data the two external extraction
utilities recover. -/
structure DirCkpt where
  global_step : Int
  weights : List (String × Int)
deriving DecidableEq

/-- Modelled from the spec: `extract_global_step(path)` for a sharded
checkpoint directory. -/
def get_global_step_from_zero_checkpoint (d : DirCkpt) : Int :=
  d.global_step

/-- Modelled from the spec: `extract_flat_weights(path)` for a sharded
checkpoint directory. -/
def get_fp32_state_dict_from_zero_checkpoint (d : DirCkpt) : List (String × Int) :=
  d.weights

/-- A value of `args.resume_from_ckpt` together with what lives on disk
there: either a sharded checkpoint directory (`os.path.isdir` true) or a
single file whose `torch.load` yields a flat dict (values collapsed to
`Int`; for a consolidated checkpoint one entry is `"global_step"`). -/
inductive CkptPath where
  | dir (d : DirCkpt)
  | file (sd : List (String × Int))
deriving DecidableEq

/-- Lines 372-376: the global step recovered for a full resume —
directory: the external extraction utility; file:
`int(torch.load(path)['global_step'])`, a `KeyError` if the field is
absent. -/
def resumeGlobalStep : CkptPath → Except PyErr Int
  | .dir d => .ok (get_global_step_from_zero_checkpoint d)
  | .file sd =>
      match sd.lookup "global_step" with
      | some v => .ok v
      | none => .error (.keyError "global_step")

/-- Lines 380-383: the flat weight map recovered for a weights-only
resume, via the same directory/file branching. -/
def resumeWeights : CkptPath → List (String × Int)
  | .dir d => get_fp32_state_dict_from_zero_checkpoint d
  | .file sd => sd

/-- Python values flowing through `load_jax_params_into_model`: the call
site at lines 369-370 passes the live model object where the function
expects a path string. -/
inductive PyVal where
  | str (s : String)
  | module (tag : String)
deriving DecidableEq

/-- Lines 498-504 (`load_jax_params_into_model(param_path, model)`),
with the two external collaborators threaded as parameters:
`get_model_basename` (from `openfold.utils.script_utils`) and
`import_jax_weights_` (from `openfold.utils.import_weights`), each of
which may raise.  After `model_basename` and `model_version` are bound,
the success log at line 503 interpolates the name `path`, which is not
among the function's bound locals (`param_path`, `model`,
`model_basename`, `model_version`), so reaching it raises `NameError`. -/
def load_jax_params_into_model
    (basenameOf : PyVal → Except PyErr String)
    (importJaxWeights : PyVal → PyVal → String → Except PyErr Unit)
    (param_path model : PyVal) : Except PyErr PyVal := do
  let model_basename ← basenameOf param_path
  let model_version := String.intercalate "_" ((model_basename.splitOn "_").drop 1)
  let _ ← importJaxWeights model param_path model_version
  let localEnv : List (String × PyVal) :=
    [("param_path", param_path), ("model", model),
     ("model_basename", .str model_basename), ("model_version", .str model_version)]
  let _ ←
    (match localEnv.lookup "path" with
     | some v => Except.ok v
     | none => Except.error (PyErr.nameError "path"))
  pure model

/-- The command-line arguments of `main` that drive the resumption
logic. -/
structure Args where
  jax_param_path : Option String
  resume_from_ckpt : Option CkptPath
  resume_model_weights_only : Bool

/-- The parts of the `OpenFoldWrapper` module state that `main`'s
resumption logic touches: `last_lr_step` (initialized to `-1` at
line 64, set by `resume_last_lr_step`) and the state dict installed by
the weights-only branch's `load_state_dict` (lines 386-387). -/
structure ModelModuleState where
  last_lr_step : Int
  loaded_state : Option (List (String × Int))
deriving DecidableEq

/-- Line 64: the wrapper starts with the `-1` sentinel and no externally
loaded state dict. -/
def initModelModule : ModelModuleState :=
  { last_lr_step := -1, loaded_state := none }

/-- Lines 367-388 and 476-479 of `main`: the `if/elif` on
`jax_param_path` and full resume, the separate `if` for the weights-only
load (prefixing every key with `"model."` at line 386), and the
`ckpt_path` handed to `trainer.fit` (`None` when
`resume_model_weights_only`).  Returns the wrapper state and that
`ckpt_path`. -/
def mainSetup
    (basenameOf : PyVal → Except PyErr String)
    (importJaxWeights : PyVal → PyVal → String → Except PyErr Unit)
    (modelObj : PyVal) (args : Args) :
    Except PyErr (ModelModuleState × Option CkptPath) := do
  let m0 := initModelModule
  let m1 ←
    match args.jax_param_path with
    | some p => do
        let _ ← load_jax_params_into_model basenameOf importJaxWeights modelObj (.str p)
        pure m0
    | none =>
        match args.resume_from_ckpt, args.resume_model_weights_only with
        | some ck, false => do
            let last_global_step ← resumeGlobalStep ck
            pure { m0 with last_lr_step := last_global_step }
        | _, _ => pure m0
  let m2 :=
    match args.resume_from_ckpt, args.resume_model_weights_only with
    | some ck, true =>
        let sd := (resumeWeights ck).map (fun kv => ("model." ++ kv.1, kv.2))
        { m1 with loaded_state := some sd }
    | _, _ => m1
  let ckpt_path := if args.resume_model_weights_only then none else args.resume_from_ckpt
  pure (m2, ckpt_path)

/-- The scheduler configuration used for concrete evaluation of the
resumption behaviour: linear warmup over 1000 steps to a peak rate of
1/1000, decay beginning after 50000 steps (the shape the spec
describes, at the library's documented default strengths). -/
def defaultLRConfig : LRConfig :=
  { base_lr := 0, max_lr := 1/1000, warmup_no_steps := 1000,
    start_decay_after_n_steps := 50000, decay_every_n_steps := 50000,
    decay_factor := 95/100 }

/-- The `__main__` block, lines 726-743: argument checks run first (the
precision/DeepSpeed check at lines 733-734 among them) and `main(args)`
is only reached afterwards, so a failing check aborts the process before
any training step. -/
def trainingEntry
    (precision : String) (deepspeed_config_path : Option String)
    (basenameOf : PyVal → Except PyErr String)
    (importJaxWeights : PyVal → PyVal → String → Except PyErr Unit)
    (modelObj : PyVal) (args : Args) :
    Except PyErr (ModelModuleState × Option CkptPath) := do
  let _ ← startupPrecisionCheck precision deepspeed_config_path
  mainSetup basenameOf importJaxWeights modelObj args

/-! ## Helper lemmas about the heap operations -/

/-- A cell no pair of `addrs` points to is untouched by `writeParams`. -/
theorem writeParams_notMem (addrs : List (String × Addr)) (h : Heap) (vals : String → Int)
    (a : Addr) (ha : ∀ p ∈ addrs, a ≠ p.2) : writeParams h addrs vals a = h a := by
  induction addrs generalizing h with
  | nil => rfl
  | cons p t ih =>
      have hne : a ≠ p.2 := ha p (List.mem_cons_self p t)
      have ht : ∀ q ∈ t, a ≠ q.2 := fun q hq => ha q (List.mem_cons_of_mem p hq)
      simp only [writeParams, List.foldl_cons] at *
      rw [ih (Function.update h p.2 (vals p.1)) ht]
      exact Function.update_noteq hne _ h

/-- If the supplied values agree with a reference heap `h0` on every
written name, and the starting heap agrees with `h0` off the written
addresses, then `writeParams` reconstructs `h0` exactly. -/
theorem writeParams_restore (addrs : List (String × Addr)) (h h0 : Heap) (vals : String → Int)
    (hvals : ∀ p ∈ addrs, vals p.1 = h0 p.2)
    (hoff : ∀ a, (∀ p ∈ addrs, a ≠ p.2) → h a = h0 a) :
    writeParams h addrs vals = h0 := by
  induction addrs generalizing h with
  | nil => funext a; exact hoff a (by simp)
  | cons p t ih =>
      simp only [writeParams, List.foldl_cons] at *
      apply ih (Function.update h p.2 (vals p.1))
      · intro q hq; exact hvals q (List.mem_cons_of_mem p hq)
      · intro a hat
        by_cases hap : a = p.2
        · subst hap
          rw [Function.update_same]
          exact hvals p (List.mem_cons_self p t)
        · rw [Function.update_noteq hap]
          apply hoff
          intro q hq
          rcases List.mem_cons.mp hq with h1 | h2
          · subst h1; exact hap
          · exact hat q h2

/-- With duplicate-free parameter names, looking a name up in the cloned
cache returns the value the live tensor held when the clone was taken. -/
theorem lookupD_clone (l : List (String × Addr)) (h : Heap)
    (hnd : (l.map Prod.fst).Nodup) (p : String × Addr) (hp : p ∈ l) :
    lookupD (l.map (fun ka => (ka.1, h ka.2))) p.1 = h p.2 := by
  induction l with
  | nil => cases hp
  | cons q t ih =>
      rcases List.mem_cons.mp hp with h1 | h2
      · subst h1
        simp [lookupD, List.lookup]
      · have hq1 : p.1 ≠ q.1 := by
          intro he
          have : q.1 ∈ t.map Prod.fst := he ▸ List.mem_map_of_mem Prod.fst h2
          simp only [List.map_cons, List.nodup_cons] at hnd
          exact hnd.1 this
        have hnd' : (t.map Prod.fst).Nodup := by
          simp only [List.map_cons, List.nodup_cons] at hnd
          exact hnd.2
        have hbeq : (p.1 == q.1) = false := beq_eq_false_iff_ne.mpr hq1
        simpa [lookupD, List.lookup, hbeq] using ih hnd' h2

/-! ## Claim theorems -/

/-- C1: the claim asserts that after `resume_last_lr_step(N)` and
`configure_optimizers`, the `initial_lr` baseline equals the base
learning rate (which holds) AND that the first scheduler step after
resumption produces the multiplier a continuous run would produce at
step `N+1`.  The second part fails: `AlphaFoldLRScheduler(optimizer)` is
constructed without its `last_epoch` argument, so the scheduler's
counter is the fresh sentinel `-1` regardless of the recorded step, and
at `N = 500` the first post-resume step applies the warmup multiplier
for step 1, not the continuous-run multiplier for step 501. -/
theorem lr_resume_divergence :
    (configure_optimizers 500 (1/1000)).1
      = [{ lr := 1/1000, initial_lr := some (1/1000) }] ∧
    (configure_optimizers 500 (1/1000)).2.last_epoch = -1 ∧
    firstMultAfterResume defaultLRConfig 500 (1/1000) = lrMult defaultLRConfig 1 ∧
    lrMult defaultLRConfig 1 ≠ lrMult defaultLRConfig 501 := by
  refine ⟨rfl, rfl, rfl, ?_⟩
  norm_num [lrMult, defaultLRConfig]

/-- C2 counterexample: from the `Swapped` state (non-`None`
`cached_weights`), a second `swap_in` — running `validation_step`'s
swap block again without an intervening `swap_out` — is a silent no-op:
it returns the heap and wrapper state unchanged and raises nothing,
contradicting the claim that it raises `StateError`. -/
theorem swap_in_twice_noop_cex :
    validationStepSwap
      (validationStepSwap (fun a => (a : Int))
        { modelAddrs := [("w", 0)], emaVals := fun _ => 7, cached_weights := none }).1
      (validationStepSwap (fun a => (a : Int))
        { modelAddrs := [("w", 0)], emaVals := fun _ => 7, cached_weights := none }).2
      = validationStepSwap (fun a => (a : Int))
          { modelAddrs := [("w", 0)], emaVals := fun _ => 7, cached_weights := none } := rfl

/-- C2 (amended): calling `swap_in` from the `Swapped` state is a silent
no-op — the `if cached_weights is None` guard skips the whole block —
while calling `swap_out` from the `Live` state raises a Python error
from `load_state_dict(None)` (not a `StateError`; no such class exists
in the program). -/
theorem swap_wrong_state (h : Heap) (s : WrapperSwapState) :
    (∀ w, s.cached_weights = some w → validationStepSwap h s = (h, s)) ∧
    (s.cached_weights = none →
      validationEpochEndSwap h s
        = .error (.attributeError "load_state_dict received NoneType")) := by
  constructor
  · intro w hw
    simp [validationStepSwap, hw]
  · intro hn
    simp [validationEpochEndSwap, hn]

/-- Witness for `swap_wrong_state` at a concrete swapped state and a
concrete live state. -/
theorem swap_wrong_state_witness :
    validationStepSwap (fun _ => 0)
        { modelAddrs := [("b", 1)], emaVals := fun _ => 2, cached_weights := some [("b", 3)] }
      = ((fun _ => 0),
         { modelAddrs := [("b", 1)], emaVals := fun _ => 2, cached_weights := some [("b", 3)] }) ∧
    validationEpochEndSwap (fun _ => 0)
        { modelAddrs := [("b", 1)], emaVals := fun _ => 2, cached_weights := none }
      = .error (.attributeError "load_state_dict received NoneType") :=
  ⟨(swap_wrong_state _ _).1 [("b", 3)] rfl, (swap_wrong_state _ _).2 rfl⟩

/-- C3: from the `Live` state, `swap_in` (clone the live values, load
the EMA shadow into the live tensors) immediately followed by
`swap_out` (load the cached clone back, clear the cache) restores every
live tensor cell — indeed the entire heap — to its pre-swap value, and
returns the wrapper to its pre-swap state, because the cache holds
cloned values rather than references to the mutated tensors. -/
theorem swap_roundtrip (h : Heap) (s : WrapperSwapState)
    (hlive : s.cached_weights = none)
    (hnd : (s.modelAddrs.map Prod.fst).Nodup) :
    validationEpochEndSwap (validationStepSwap h s).1 (validationStepSwap h s).2
      = .ok (h, s) := by
  obtain ⟨ma, ev, cw⟩ := s
  simp only at hlive hnd
  subst hlive
  simp only [validationStepSwap, validationEpochEndSwap, Except.ok.injEq, Prod.mk.injEq]
  refine ⟨?_, trivial⟩
  apply writeParams_restore
  · intro p hp
    exact lookupD_clone ma h hnd p hp
  · intro a ha
    exact writeParams_notMem ma h ev a ha

/-- Witness for `swap_roundtrip` at a concrete two-parameter model. -/
theorem swap_roundtrip_witness :
    validationEpochEndSwap
      (validationStepSwap (fun a => (a : Int) + 10)
        { modelAddrs := [("w", 0), ("b", 1)], emaVals := fun _ => 42,
          cached_weights := none }).1
      (validationStepSwap (fun a => (a : Int) + 10)
        { modelAddrs := [("w", 0), ("b", 1)], emaVals := fun _ => 42,
          cached_weights := none }).2
      = .ok ((fun a => (a : Int) + 10),
         { modelAddrs := [("w", 0), ("b", 1)], emaVals := fun _ => 42,
           cached_weights := none }) :=
  swap_roundtrip _ _ rfl (by decide)

/-- C4: with superimposition metrics enabled (and the structural-metrics
config flag set), a batch dimension greater than 1 makes
`_compute_validation_metrics` fail on the batch-size assertion rather
than silently truncating, while a batch dimension of exactly 1 passes
that precondition and the call succeeds. -/
theorem allatom_batch_guard (b : ℕ) (hb : 1 < b) :
    computeValidationMetricKeys b true true
      = .error (.assertionError "Structure metrics only supported for batchsize of 1.") ∧
    (computeValidationMetricKeys 1 true true).isOk = true := by
  have hb1 : ¬b = 1 := by omega
  refine ⟨?_, rfl⟩
  simp [computeValidationMetricKeys, hb1]

/-- Witness for `allatom_batch_guard` at batch size 2. -/
theorem allatom_batch_guard_witness :
    computeValidationMetricKeys 2 true true
      = .error (.assertionError "Structure metrics only supported for batchsize of 1.") ∧
    (computeValidationMetricKeys 1 true true).isOk = true :=
  allatom_batch_guard 2 (by decide)

/-- C5: loading the EMA checkpoint fragment with template support
disabled keeps exactly the shadow entries whose key does not contain
the substring `"template"` (and preserves the decay); with template
support enabled the fragment is loaded unchanged. -/
theorem ema_template_filter (c : EMACheckpoint) (k : String) (v : Int) :
    on_load_checkpoint true c = c ∧
    (on_load_checkpoint false c).decay = c.decay ∧
    ((k, v) ∈ (on_load_checkpoint false c).params ↔
      (k, v) ∈ c.params ∧ strContains k "template" = false) := by
  refine ⟨rfl, rfl, ?_⟩
  simp [on_load_checkpoint, List.mem_filter]

/-- Witness for `ema_template_filter`: a template-named key is dropped
and a non-template key is kept on a concrete fragment. -/
theorem ema_template_filter_witness :
    ((("template_pointwise.w" : String), (2 : Int)) ∈
        (on_load_checkpoint false
          { params := [("evoformer.w", 1), ("template_pointwise.w", 2)],
            decay := 999/1000 }).params ↔
      (("template_pointwise.w", 2)
          ∈ [(("evoformer.w" : String), (1 : Int)), ("template_pointwise.w", 2)] ∧
        strContains "template_pointwise.w" "template" = false)) :=
  (ema_template_filter
    { params := [("evoformer.w", 1), ("template_pointwise.w", 2)], decay := 999/1000 }
    "template_pointwise.w" 2).2.2

/-- C8: requesting the sharded (DeepSpeed) optimizer together with
16-bit precision makes the startup check fail with the fatal
configuration error before `main` — and hence before any training
step — runs, while any configuration lacking that combination passes
the check. -/
theorem fp16_sharded_exclusion (precision : String) (ds : Option String)
    (basenameOf : PyVal → Except PyErr String)
    (importJaxWeights : PyVal → PyVal → String → Except PyErr Unit)
    (modelObj : PyVal) (args : Args) :
    (precision = "16" ∧ ds.isSome = true →
      startupPrecisionCheck precision ds
        = .error (.valueError "DeepSpeed and FP16 training are not compatible") ∧
      trainingEntry precision ds basenameOf importJaxWeights modelObj args
        = .error (.valueError "DeepSpeed and FP16 training are not compatible")) ∧
    (¬(precision = "16" ∧ ds.isSome = true) →
      startupPrecisionCheck precision ds = .ok ()) := by
  constructor
  · intro hcond
    have hchk : startupPrecisionCheck precision ds
        = .error (.valueError "DeepSpeed and FP16 training are not compatible") := by
      simp [startupPrecisionCheck, hcond.1, hcond.2]
    refine ⟨hchk, ?_⟩
    simp only [trainingEntry, hchk]
    rfl
  · intro hcond
    simp only [startupPrecisionCheck, if_neg hcond]

/-- Witness for `fp16_sharded_exclusion`: 16-bit precision with a
DeepSpeed config path is rejected before main runs; 32-bit with the
same config path passes the check. -/
theorem fp16_sharded_exclusion_witness :
    (startupPrecisionCheck "16" (some "deepspeed_config.json")
        = .error (.valueError "DeepSpeed and FP16 training are not compatible") ∧
      trainingEntry "16" (some "deepspeed_config.json") (fun _ => .ok "x")
          (fun _ _ _ => .ok ()) (.module "alphafold")
          { jax_param_path := none, resume_from_ckpt := none,
            resume_model_weights_only := false }
        = .error (.valueError "DeepSpeed and FP16 training are not compatible")) ∧
    startupPrecisionCheck "32" (some "deepspeed_config.json") = .ok () :=
  ⟨(fp16_sharded_exclusion "16" (some "deepspeed_config.json") (fun _ => .ok "x")
      (fun _ _ _ => .ok ()) (.module "alphafold")
      { jax_param_path := none, resume_from_ckpt := none,
        resume_model_weights_only := false }).1 ⟨rfl, rfl⟩,
   (fp16_sharded_exclusion "32" (some "deepspeed_config.json") (fun _ => .ok "x")
      (fun _ _ _ => .ok ()) (.module "alphafold")
      { jax_param_path := none, resume_from_ckpt := none,
        resume_model_weights_only := false }).2 (by simp)⟩

/-- Bind on `Except` propagates a success value. -/
theorem except_bind_ok {α β ε : Type} (a : α) (f : α → Except ε β) :
    ((Except.ok a : Except ε α) >>= f) = f a := rfl

/-- Bind on `Except` short-circuits an error. -/
theorem except_bind_error {α β ε : Type} (e : ε) (f : α → Except ε β) :
    ((Except.error e : Except ε α) >>= f) = Except.error e := rfl

/-- Whatever the external collaborators `get_model_basename` and
`import_jax_weights_` do, `load_jax_params_into_model` ends in an
error: if the externals succeed, interpolating the unbound name `path`
in the success log raises `NameError`. -/
theorem load_jax_raises
    (basenameOf : PyVal → Except PyErr String)
    (importJaxWeights : PyVal → PyVal → String → Except PyErr Unit)
    (q m : PyVal) :
    ∃ e, load_jax_params_into_model basenameOf importJaxWeights q m = .error e := by
  cases hb : basenameOf q with
  | error e =>
      exact ⟨e, by simp [load_jax_params_into_model, hb, except_bind_error]⟩
  | ok s =>
      simp only [load_jax_params_into_model, hb, except_bind_ok]
      cases hi : importJaxWeights m q (String.intercalate "_" (List.drop 1 (s.splitOn "_"))) with
      | error e =>
          exact ⟨e, by simp only [hi, except_bind_error]⟩
      | ok u =>
          refine ⟨PyErr.nameError "path", ?_⟩
          simp only [hi, except_bind_ok]
          rfl

/-- C6: for a full (not weights-only) resume with no JAX path, `main`
recovers the global step by the directory/file branching — the external
sharded-checkpoint extraction utility for a directory, the checkpoint's
`global_step` field for a single file — and records it as the
scheduler's resume point via `resume_last_lr_step`, handing the
checkpoint path on to the trainer. -/
theorem full_resume_records_global_step
    (basenameOf : PyVal → Except PyErr String)
    (importJaxWeights : PyVal → PyVal → String → Except PyErr Unit)
    (modelObj : PyVal) (args : Args) (ck : CkptPath)
    (hjax : args.jax_param_path = none)
    (hres : args.resume_from_ckpt = some ck)
    (hwo : args.resume_model_weights_only = false) :
    mainSetup basenameOf importJaxWeights modelObj args
      = (resumeGlobalStep ck >>= fun n =>
          .ok ({ initModelModule with last_lr_step := n }, some ck)) ∧
    (∀ d, ck = CkptPath.dir d →
      resumeGlobalStep ck = .ok (get_global_step_from_zero_checkpoint d)) ∧
    (∀ sd v, ck = CkptPath.file sd → sd.lookup "global_step" = some v →
      resumeGlobalStep ck = .ok v) := by
  obtain ⟨jp, rc, wo⟩ := args
  dsimp only at hjax hres hwo
  subst hjax hres hwo
  refine ⟨?_, ?_, ?_⟩
  · cases hstep : resumeGlobalStep ck with
    | ok v =>
        simp only [mainSetup, hstep, except_bind_ok]
        rfl
    | error e =>
        simp only [mainSetup, hstep, except_bind_error]
  · rintro d rfl
    rfl
  · rintro sd v rfl hv
    simp [resumeGlobalStep, hv]

/-- Witness for `full_resume_records_global_step` at a concrete
single-file checkpoint carrying `global_step = 7`. -/
theorem full_resume_witness :
    mainSetup (fun _ => .ok "x") (fun _ _ _ => .ok ()) (.module "alphafold")
        { jax_param_path := none,
          resume_from_ckpt := some (.file [("global_step", 7), ("w", 3)]),
          resume_model_weights_only := false }
      = (resumeGlobalStep (.file [("global_step", 7), ("w", 3)]) >>= fun n =>
          .ok ({ initModelModule with last_lr_step := n },
               some (.file [("global_step", 7), ("w", 3)]))) :=
  (full_resume_records_global_step (fun _ => .ok "x") (fun _ _ _ => .ok ())
    (.module "alphafold")
    { jax_param_path := none,
      resume_from_ckpt := some (.file [("global_step", 7), ("w", 3)]),
      resume_model_weights_only := false }
    (.file [("global_step", 7), ("w", 3)]) rfl rfl rfl).1

/-- C7: a weights-only load extracts the flat weight map by the same
directory/file branching as the global-step recovery and installs it
after prefixing every key with the wrapper's `"model."` namespace; the
wrapper keeps its `-1` sentinel and no checkpoint path reaches the
trainer. -/
theorem weights_only_prefix_load
    (basenameOf : PyVal → Except PyErr String)
    (importJaxWeights : PyVal → PyVal → String → Except PyErr Unit)
    (modelObj : PyVal) (args : Args) (ck : CkptPath)
    (hjax : args.jax_param_path = none)
    (hres : args.resume_from_ckpt = some ck)
    (hwo : args.resume_model_weights_only = true) :
    mainSetup basenameOf importJaxWeights modelObj args
      = .ok ({ last_lr_step := -1,
               loaded_state :=
                 some ((resumeWeights ck).map (fun kv => ("model." ++ kv.1, kv.2))) },
             none) ∧
    (∀ d, ck = CkptPath.dir d →
      resumeWeights ck = get_fp32_state_dict_from_zero_checkpoint d) ∧
    (∀ sd, ck = CkptPath.file sd → resumeWeights ck = sd) ∧
    ((resumeWeights ck).map (fun kv => ("model." ++ kv.1, kv.2))).map Prod.fst
      = (resumeWeights ck).map (fun kv => "model." ++ kv.1) := by
  obtain ⟨jp, rc, wo⟩ := args
  dsimp only at hjax hres hwo
  subst hjax hres hwo
  refine ⟨rfl, ?_, ?_, ?_⟩
  · rintro d rfl
    rfl
  · rintro sd rfl
    rfl
  · rw [List.map_map]
    rfl

/-- Witness for `weights_only_prefix_load` at a concrete sharded
checkpoint directory. -/
theorem weights_only_prefix_witness :
    mainSetup (fun _ => .ok "x") (fun _ _ _ => .ok ()) (.module "alphafold")
        { jax_param_path := none,
          resume_from_ckpt := some (.dir { global_step := 9, weights := [("w", 3)] }),
          resume_model_weights_only := true }
      = .ok ({ last_lr_step := -1,
               loaded_state :=
                 some ((resumeWeights (.dir { global_step := 9, weights := [("w", 3)] })).map
                   (fun kv => ("model." ++ kv.1, kv.2))) },
             none) :=
  (weights_only_prefix_load (fun _ => .ok "x") (fun _ _ _ => .ok ()) (.module "alphafold")
    { jax_param_path := none,
      resume_from_ckpt := some (.dir { global_step := 9, weights := [("w", 3)] }),
      resume_model_weights_only := true }
    (.dir { global_step := 9, weights := [("w", 3)] }) rfl rfl rfl).1

/-- C9: whenever a JAX parameter path is supplied, the JAX-loading
branch of `main` never completes normally — the call site passes
`(model, path)` to a function declared `(param_path, model)`, and even
when the external collaborators succeed the function's success log
references the undefined name `path`, raising `NameError`. -/
theorem jax_path_always_raises
    (basenameOf : PyVal → Except PyErr String)
    (importJaxWeights : PyVal → PyVal → String → Except PyErr Unit)
    (modelObj : PyVal) (args : Args) (p : String)
    (hjax : args.jax_param_path = some p) :
    (∀ q m, (load_jax_params_into_model basenameOf importJaxWeights q m).isOk = false) ∧
    (mainSetup basenameOf importJaxWeights modelObj args).isOk = false := by
  constructor
  · intro q m
    obtain ⟨e, he⟩ := load_jax_raises basenameOf importJaxWeights q m
    rw [he]
    rfl
  · obtain ⟨jp, rc, wo⟩ := args
    dsimp only at hjax
    subst hjax
    obtain ⟨e, he⟩ := load_jax_raises basenameOf importJaxWeights modelObj (.str p)
    simp only [mainSetup, he, except_bind_error]
    rfl

/-- Witness for `jax_path_always_raises` at a concrete run supplying a
JAX parameter path. -/
theorem jax_path_raises_witness :
    (mainSetup (fun _ => .ok "params_model_1") (fun _ _ _ => .ok ()) (.module "alphafold")
        { jax_param_path := some "resources/params/params_model_1.npz",
          resume_from_ckpt := none,
          resume_model_weights_only := false }).isOk = false :=
  (jax_path_always_raises (fun _ => .ok "params_model_1") (fun _ _ _ => .ok ())
    (.module "alphafold")
    { jax_param_path := some "resources/params/params_model_1.npz",
      resume_from_ckpt := none,
      resume_model_weights_only := false }
    "resources/params/params_model_1.npz" rfl).2

/-- C10: resuming with the weights-only flag set records no
learning-rate resume step — `last_lr_step` keeps its `-1` sentinel — and
hands no checkpoint path to the trainer, so the schedule starts fresh:
the first scheduler step applies the multiplier for step 1, exactly as
in an uninterrupted run's first step. -/
theorem weights_only_fresh_schedule
    (basenameOf : PyVal → Except PyErr String)
    (importJaxWeights : PyVal → PyVal → String → Except PyErr Unit)
    (modelObj : PyVal) (args : Args) (ck : CkptPath)
    (hjax : args.jax_param_path = none)
    (hres : args.resume_from_ckpt = some ck)
    (hwo : args.resume_model_weights_only = true) :
    (mainSetup basenameOf importJaxWeights modelObj args).map
        (fun r => (r.1.last_lr_step, r.2)) = .ok (-1, none) ∧
    (∀ c lr, firstMultAfterResume c (-1) lr = lrMult c 1) := by
  obtain ⟨jp, rc, wo⟩ := args
  dsimp only at hjax hres hwo
  subst hjax hres hwo
  exact ⟨rfl, fun c lr => rfl⟩

/-- Witness for `weights_only_fresh_schedule` at a concrete single-file
checkpoint whose recorded global step is ignored. -/
theorem weights_only_fresh_witness :
    (mainSetup (fun _ => .ok "y") (fun _ _ _ => .ok ()) (.module "af2")
        { jax_param_path := none,
          resume_from_ckpt := some (.file [("global_step", 11), ("b", 4)]),
          resume_model_weights_only := true }).map
        (fun r => (r.1.last_lr_step, r.2)) = .ok (-1, none) :=
  (weights_only_fresh_schedule (fun _ => .ok "y") (fun _ _ _ => .ok ()) (.module "af2")
    { jax_param_path := none,
      resume_from_ckpt := some (.file [("global_step", 11), ("b", 4)]),
      resume_model_weights_only := true }
    (.file [("global_step", 11), ("b", 4)]) rfl rfl rfl).1
